import Mathlib

/-!
Verification of the Logger repository's core behaviors, shallowly embedded in
Lean 4. The embedding follows `src/my_logger.py` (exception hooks, crash dump,
JSON formatter, handler setup) and `src/src/jvlogger/jvlogger.py` (single
instance lock, close). Components of the `jvlogger` package that are not in
the repository snapshot (`mutex`, `exceptions`) are modelled from the spec and
marked as such in their doc comments.
-/

namespace MyLogger

/-! ## Fault model: exception types, fault info, and handler actions

`excepthook_logger`, `thread_excepthook` and `asyncio_exception_handler` in
`src/my_logger.py` are side-effecting Python functions; we embed each as a pure
function from its inputs to the ordered list of observable actions it performs
(logging a record, writing the crash file, delegating to the interpreter's
default hook). -/

/-- Python exception classes relevant to the hooks: `KeyboardInterrupt` is
special-cased, everything else is an ordinary fault. -/
inductive ExcType
  | keyboardInterrupt
  | runtimeError
  | zeroDivisionError
  | other (tag : Nat)
deriving DecidableEq, Repr

/-- The `(exc_type, exc_value, exc_traceback)` triple the hooks receive,
abstracted to the exception class and its message text. -/
structure FaultInfo where
  excType : ExcType
  excMessage : String
deriving DecidableEq, Repr

/-- Logging severity levels, ordered DEBUG < INFO < WARNING < ERROR < CRITICAL. -/
inductive Level
  | debug
  | info
  | warning
  | error
  | critical
deriving DecidableEq, Repr

/-- An observable action performed by one of the exception hooks. -/
inductive Action
  | logMsg (lvl : Level) (excInfo : Option FaultInfo)
  | dumpCrash (fault : FaultInfo)
  | defaultSysExcepthook (fault : FaultInfo)
deriving DecidableEq, Repr

/-- Embeds `excepthook_logger` (src/my_logger.py lines 94-107): for a
`KeyboardInterrupt` it delegates to `sys.__excepthook__` and returns; otherwise
it logs at CRITICAL with `exc_info` and then calls `dump_last_crash`. -/
def excepthook_logger (f : FaultInfo) : List Action :=
  if f.excType = ExcType.keyboardInterrupt then
    [Action.defaultSysExcepthook f]
  else
    [Action.logMsg Level.critical (some f), Action.dumpCrash f]

/-- Embeds `thread_excepthook` (src/my_logger.py lines 114-126): for a
`KeyboardInterrupt` it returns immediately (performing nothing); otherwise it
logs at CRITICAL with `exc_info` and then calls `dump_last_crash`. -/
def thread_excepthook (f : FaultInfo) : List Action :=
  if f.excType = ExcType.keyboardInterrupt then
    []
  else
    [Action.logMsg Level.critical (some f), Action.dumpCrash f]

/-- Embeds `asyncio_exception_handler` (src/my_logger.py lines 133-143): when
the context carries an exception it calls `logger.error` with `exc_info` and
then `dump_last_crash`; when it does not, it only calls `logger.error`. There
is no `KeyboardInterrupt` check in this handler. -/
def asyncio_exception_handler (exception : Option FaultInfo) : List Action :=
  match exception with
  | some f => [Action.logMsg Level.error (some f), Action.dumpCrash f]
  | none => [Action.logMsg Level.error none]

/-! ## Hook installation state (`install_global_exception_handlers`)

`install_global_exception_handlers` (src/my_logger.py lines 150-173) assigns
`sys.excepthook`, `threading.excepthook` (Python >= 3.8) and, when an event
loop exists and is not running, the loop's exception handler. Assignment (not
registration in a list) is the essential fact: we model the three process-wide
slots explicitly. -/

/-- The value held by the `sys.excepthook` slot. -/
inductive SysHookSlot
  | interpreterDefault
  | loggerHook
deriving DecidableEq, Repr

/-- The value held by the `threading.excepthook` slot. -/
inductive ThreadHookSlot
  | interpreterDefault
  | loggerThreadHook
deriving DecidableEq, Repr

/-- The value held by the event loop's exception-handler slot. -/
inductive LoopHookSlot
  | loopDefault
  | loggerAsyncHook
deriving DecidableEq, Repr

/-- Process-wide handler state: the three slots, plus the environment facts the
installer branches on (whether `asyncio.get_event_loop` succeeds and whether
that loop is already running). -/
structure HookState where
  sysHook : SysHookSlot
  threadHook : ThreadHookSlot
  loopHook : LoopHookSlot
  loopExists : Bool
  loopRunning : Bool
deriving DecidableEq, Repr

/-- Embeds `install_global_exception_handlers` (src/my_logger.py lines
150-173): assigns `sys.excepthook := excepthook_logger`,
`threading.excepthook := thread_excepthook`, and sets the loop handler only
when a loop exists and is not already running (otherwise the slot is left
untouched). -/
def install_global_exception_handlers (s : HookState) : HookState :=
  { s with
    sysHook := SysHookSlot.loggerHook
    threadHook := ThreadHookSlot.loggerThreadHook
    loopHook :=
      if s.loopExists && !s.loopRunning then LoopHookSlot.loggerAsyncHook
      else s.loopHook }

/-- Dispatch of an uncaught main-path fault through whatever handler the
`sys.excepthook` slot currently holds. -/
def dispatchMainFault (s : HookState) (f : FaultInfo) : List Action :=
  match s.sysHook with
  | SysHookSlot.interpreterDefault => [Action.defaultSysExcepthook f]
  | SysHookSlot.loggerHook => excepthook_logger f

/-- Number of CRITICAL log actions in an action list. -/
def countCritical (acts : List Action) : Nat :=
  acts.countP fun a =>
    match a with
    | Action.logMsg Level.critical _ => true
    | _ => false

/-- Number of crash-file writes in an action list. -/
def countDump (acts : List Action) : Nat :=
  acts.countP fun a =>
    match a with
    | Action.dumpCrash _ => true
    | _ => false

/-! ## Crash file write trace (`dump_last_crash`)

`dump_last_crash` (src/my_logger.py lines 81-87) runs
`open(LAST_CRASH_FILE, "w")` — which truncates the file in place — and then
`traceback.print_exception(..., file=f)`. We model the sequence of file
operations it performs and the crash-file contents observable after each
step, so claims about what a concurrent reader can see become statements
about the contents trace. -/

/-- A primitive operation on the crash file path. `writeTemp`/`renameTemp`
express the write-to-temp-then-replace pattern, for stating its absence. -/
inductive FileOp
  | openTruncate
  | write (s : String)
  | closeFile
  | writeTemp (s : String)
  | renameTemp
deriving DecidableEq, Repr

/-- The exact operation sequence `dump_last_crash` performs on the crash file:
`open(path, "w")` truncates, `traceback.print_exception` writes the report
text, the `with` block closes. No temp file, no rename. -/
def dump_last_crash_ops (report : String) : List FileOp :=
  [FileOp.openTruncate, FileOp.write report, FileOp.closeFile]

/-- Effect of one file operation on the crash file's contents (the main path
only; `writeTemp` touches the temp file, so the main contents are unchanged,
and `renameTemp` is never emitted by `dump_last_crash_ops`, so its effect is
irrelevant to the traces we take). -/
def applyFileOp (content : String) : FileOp → String
  | FileOp.openTruncate => ""
  | FileOp.write s => content ++ s
  | FileOp.closeFile => content
  | FileOp.writeTemp _ => content
  | FileOp.renameTemp => content

/-- Contents of the crash file observable by a concurrent reader: the contents
before any operation and after each successive operation. -/
def fileContentsTrace (prev : String) : List FileOp → List String
  | [] => [prev]
  | op :: rest => prev :: fileContentsTrace (applyFileOp prev op) rest

/-! ## Error swallowing in the crash write path

`dump_last_crash` wraps its whole body in `try: ... except Exception: pass`.
We model the body as a fallible computation (open then write, each of which
may raise) and the wrapper as the `except`-all-`Exception` clause. -/

/-- An `Exception`-derived error raised inside the crash write path. -/
structure PyError where
  message : String
deriving DecidableEq, Repr

/-- The body of `dump_last_crash`: open the file, then write the report.
Either step may raise; the first raise aborts the rest of the body. -/
def crashWriteBody (openResult writeResult : Except PyError Unit) :
    Except PyError Unit := do
  openResult
  writeResult

/-- Embeds `dump_last_crash`'s control flow (src/my_logger.py lines 81-87):
the body runs under `try: ... except Exception: pass`, so any error the body
raises is swallowed and the function returns normally, performing no further
reporting. -/
def dump_last_crash_outcome (openResult writeResult : Except PyError Unit) :
    Except PyError Unit :=
  match crashWriteBody openResult writeResult with
  | Except.ok _ => Except.ok ()
  | Except.error _ => Except.ok ()

/-! ## JSON record fields (`JsonFormatter.format`)

`JsonFormatter.format` (src/my_logger.py lines 61-74) builds a dict with the
seven keys `timestamp, name, level, message, filename, lineno, funcName` in
that order, then adds a `traceback` key exactly when `record.exc_info` is
set, and serializes it with `json.dumps(..., ensure_ascii=False)`. We embed
the dict as an ordered association list. -/

/-- A JSON value as produced by the formatter: the fields are strings except
`lineno`, which is a number. -/
inductive JValue
  | jstr (s : String)
  | jnat (n : Nat)
deriving DecidableEq, Repr

/-- The attributes of a `logging.LogRecord` that `JsonFormatter.format`
reads: creation time (pre-rendered ISO text), logger name, level name,
message, source location, and the optional exception info (pre-rendered
traceback text when present). -/
structure LogRecord where
  created : String
  name : String
  levelname : String
  message : String
  filename : String
  lineno : Nat
  funcName : String
  exc_info : Option String
deriving DecidableEq, Repr

/-- Embeds the dict built by `JsonFormatter.format`: the seven fixed keys in
source order, then `traceback` exactly when `exc_info` is set. There is no
signature mechanism anywhere in this formatter. -/
def JsonFormatter.format_record (r : LogRecord) : List (String × JValue) :=
  [("timestamp", JValue.jstr r.created),
   ("name", JValue.jstr r.name),
   ("level", JValue.jstr r.levelname),
   ("message", JValue.jstr r.message),
   ("filename", JValue.jstr r.filename),
   ("lineno", JValue.jnat r.lineno),
   ("funcName", JValue.jstr r.funcName)] ++
  (match r.exc_info with
   | some tb => [("traceback", JValue.jstr tb)]
   | none => [])

/-- The keys of a formatted record, in order. -/
def recordKeys (r : LogRecord) : List String :=
  (JsonFormatter.format_record r).map Prod.fst

/-! ## Handler setup guard (`Logger.__init__` and `JVLogger.__init__`)

Both constructors fetch the named logger from the process-wide registry and
configure handlers only when `not self.logger.handlers` (src/my_logger.py
lines 196-199; src/src/jvlogger/jvlogger.py lines 78-79). We model the
registry entry for one name as its current handler list and each constructor
as a function on that list. -/

/-- The handlers `Logger.__init__` attaches when the named logger has none:
`_setup_console_handler`, `_setup_file_handler` (timed rotating text log),
`_setup_api_app` (size-rotating JSON log), in that order. -/
inductive Handler
  | consoleColored
  | timedRotatingText
  | rotatingJson
deriving DecidableEq, Repr

/-- Embeds the handler wiring of `Logger.__init__` (src/my_logger.py lines
196-199): when the named logger's handler list is empty the three handlers
are attached; otherwise the list is left exactly as it is. -/
def Logger.init_handlers (existing : List Handler) : List Handler :=
  if existing = [] then
    [Handler.consoleColored, Handler.timedRotatingText, Handler.rotatingJson]
  else
    existing

/-- Embeds the handler wiring of `JVLogger.__init__` (src/src/jvlogger/
jvlogger.py lines 78-79): `_setup_logging_from_json` runs only when the named
logger's handler list is empty. The concrete handler set comes from the
packaged `logging.json` config, which we leave abstract as a parameter. -/
def JVLogger.init_handlers (configHandlers existing : List Handler) : List Handler :=
  if existing = [] then configHandlers else existing

/-! ## Single-instance lock (`JVLogger.__init__`, lines 64-71)

The guarded acquisition in `JVLogger.__init__` is in the repository snapshot;
the `create_lock` factory, the `Lock.acquire` primitive and the
`SingleInstanceError` class live in the missing `jvlogger.mutex` and
`jvlogger.exceptions` modules, so those are modelled from the spec. -/

/-- Modelled from the spec: `Lock.acquire` from the missing `jvlogger.mutex`
module. Per the spec the acquisition is non-blocking — immediate success when
the named lock is free, immediate failure when it is already held. -/
def Lock.acquire (alreadyHeld : Bool) : Bool :=
  !alreadyHeld

/-- Outcome of running the single-instance block of `JVLogger.__init__`:
either construction proceeds (recording whether a lock is now held) or it
raises `SingleInstanceError` — modelled from the spec as the distinct signal
class in the missing `jvlogger.exceptions` module. -/
inductive InitOutcome
  | constructed (lockHeld : Bool)
  | raisedSingleInstanceError
deriving DecidableEq, Repr

/-- Embeds the single-instance block of `JVLogger.__init__` (src/src/
jvlogger/jvlogger.py lines 64-71): when `single_instance` is set, the lock
factory is consulted; if it yields a lock (`platformLockAvailable`) and
`acquire` fails, `SingleInstanceError` is raised; if `acquire` succeeds the
lock is stored and construction proceeds; if the factory yields `None`, or
`single_instance` is not set, construction proceeds without a lock. -/
def JVLogger.init_single_instance
    (single_instance platformLockAvailable alreadyHeld : Bool) : InitOutcome :=
  if single_instance then
    if platformLockAvailable then
      if Lock.acquire alreadyHeld then InitOutcome.constructed true
      else InitOutcome.raisedSingleInstanceError
    else InitOutcome.constructed false
  else InitOutcome.constructed false

/-! ## Close and lock release (`JVLogger.close`, lines 149-170)

`close` stops the lifecycle logger, closes and removes every handler, and
then — only if `self._lock` is still set — releases it, clearing `self._lock`
in a `finally`. We model the instance state that `close` mutates and the
release actions it performs. -/

/-- The `JVLogger` instance state that `close` reads and writes: the
logger's handler list, whether `self._lock` is set, and whether the
lifecycle logger is active. -/
structure JVLoggerState where
  handlers : List Handler
  lockSet : Bool
  lifecycleActive : Bool
deriving DecidableEq, Repr

/-- A release action performed on the underlying platform lock. -/
inductive ReleaseAction
  | releaseLock
deriving DecidableEq, Repr

/-- Embeds `JVLogger.close` (src/src/jvlogger/jvlogger.py lines 149-170):
handlers are closed and removed (errors swallowed), then the lock is released
exactly when `self._lock` is set, after which `self._lock = None`. Returns the
new instance state together with the list of release actions performed. -/
def JVLogger.close (s : JVLoggerState) : JVLoggerState × List ReleaseAction :=
  ({ handlers := [], lockSet := false, lifecycleActive := false },
   if s.lockSet then [ReleaseAction.releaseLock] else [])

/-! ## JSON string escaping (`json.dumps(..., ensure_ascii=False)`)

`JsonFormatter.format` serializes the record with
`json.dumps(log_record, ensure_ascii=False)`. For string values (in
particular the `message` field) the encoder escapes `\` and `"`, renders the
control characters BS/HT/LF/FF/CR with their short escapes, renders every
other code point below U+0020 as `\u00XX` (lowercase hex), and passes every
other code point through unchanged — non-ASCII text included, because of
`ensure_ascii=False`. Python strings are sequences of code points, so we
embed a string as a `List Nat` of code points. -/

/-- Lowercase hex digit character (as a code point) for a value below 16,
as Python's `\u00XX` rendering produces. -/
def hexDigitCode (n : Nat) : Nat :=
  if n < 10 then 48 + n else 87 + n

/-- Whether a code point is a hex digit (`0`-`9`, `a`-`f`, `A`-`F`), as a
standard JSON parser accepts inside a `\uXXXX` escape. -/
def isJsonHexDigit (c : Nat) : Bool :=
  (48 ≤ c && c ≤ 57) || (97 ≤ c && c ≤ 102) || (65 ≤ c && c ≤ 70)

/-- Numeric value of a hex digit code point (meaningful when
`isJsonHexDigit` holds). -/
def jsonHexVal (c : Nat) : Nat :=
  if c ≤ 57 then c - 48 else if c ≤ 70 then c - 55 else c - 87

/-- How `json.dumps(..., ensure_ascii=False)` renders one code point inside a
string literal: backslash and quote get two-character escapes, the five named
control characters get their short escapes, every other code point below
U+0020 becomes `\u00XX`, and everything else passes through unchanged. -/
def escapeCodepoint (c : Nat) : List Nat :=
  if c = 92 then [92, 92]
  else if c = 34 then [92, 34]
  else if c = 8 then [92, 98]
  else if c = 9 then [92, 116]
  else if c = 10 then [92, 110]
  else if c = 12 then [92, 102]
  else if c = 13 then [92, 114]
  else if c < 32 then [92, 117, 48, 48, hexDigitCode (c / 16), hexDigitCode (c % 16)]
  else [c]

/-- The full escaped body of a JSON string literal: each code point escaped
in turn. This is exactly what `json.dumps(..., ensure_ascii=False)` places
between the surrounding quotes for a string value. -/
def jsonEscapeString : List Nat → List Nat
  | [] => []
  | c :: rest => escapeCodepoint c ++ jsonEscapeString rest

/-- A standard JSON parser's reading of a `\uXXXX` escape tail: four hex
digits are consumed and combined into one code point; anything else is a
malformed escape. -/
def decodeUnicodeEscape : List Nat → Option (Nat × List Nat)
  | a :: b :: c :: d :: rest =>
    if isJsonHexDigit a && isJsonHexDigit b && isJsonHexDigit c && isJsonHexDigit d then
      some (((jsonHexVal a * 16 + jsonHexVal b) * 16 + jsonHexVal c) * 16 + jsonHexVal d, rest)
    else none
  | _ => none

/-- A standard JSON parser's reading of the text after a backslash inside a
string literal: the short escapes of RFC 8259, or `u` followed by four hex
digits; anything else is malformed. Returns the decoded code point and the
unconsumed remainder. -/
def decodeEscape : List Nat → Option (Nat × List Nat)
  | [] => none
  | e :: rest =>
    if e = 34 then some (34, rest)
    else if e = 92 then some (92, rest)
    else if e = 47 then some (47, rest)
    else if e = 98 then some (8, rest)
    else if e = 102 then some (12, rest)
    else if e = 110 then some (10, rest)
    else if e = 114 then some (13, rest)
    else if e = 116 then some (9, rest)
    else if e = 117 then decodeUnicodeEscape rest
    else none

/-- Fuel-indexed worker for the string-body parser: one unit of fuel per
decoded code point, so any fuel at least the input length is enough. -/
def parseJsonAux : Nat → List Nat → Option (List Nat)
  | _, [] => some []
  | 0, _ :: _ => none
  | fuel + 1, c :: rest =>
    if c = 34 then none
    else if c = 92 then
      match decodeEscape rest with
      | some (ch, rest2) => (parseJsonAux fuel rest2).map (fun s => ch :: s)
      | none => none
    else (parseJsonAux fuel rest).map (fun s => c :: s)

/-- A standard JSON parser's reading of a string-literal body (the text
between the quotes): backslash escapes are decoded (including `\uXXXX`), an
unescaped quote or a malformed escape means the body is not a single
well-formed string body, and every other code point is taken literally. -/
def parseJsonStringBody (l : List Nat) : Option (List Nat) :=
  parseJsonAux l.length l

/-! ## Helper lemmas -/

/-- The `\u00XX` digits the encoder emits are accepted as hex digits. -/
theorem isJsonHexDigit_hexDigitCode (n : Nat) (h : n < 16) :
    isJsonHexDigit (hexDigitCode n) = true := by
  unfold isJsonHexDigit hexDigitCode
  split_ifs <;> simp <;> omega

/-- Decoding a hex digit the encoder emitted recovers its value. -/
theorem jsonHexVal_hexDigitCode (n : Nat) (h : n < 16) :
    jsonHexVal (hexDigitCode n) = n := by
  unfold jsonHexVal hexDigitCode
  split_ifs <;> omega

/-- Decoding the `\u00XX` escape the encoder emits for a control code point
recovers that code point. -/
theorem decodeEscape_control (c : Nat) (hlt : c < 32) (rest : List Nat) :
    decodeEscape (117 :: 48 :: 48 :: hexDigitCode (c / 16) :: hexDigitCode (c % 16) :: rest) =
      some (c, rest) := by
  have hdiv : c / 16 < 16 := by omega
  have hmod : c % 16 < 16 := by omega
  have h48h : isJsonHexDigit 48 = true := by decide
  have h48v : jsonHexVal 48 = 0 := by decide
  simp only [decodeEscape, decodeUnicodeEscape, h48h, h48v,
    isJsonHexDigit_hexDigitCode _ hdiv, isJsonHexDigit_hexDigitCode _ hmod,
    jsonHexVal_hexDigitCode _ hdiv, jsonHexVal_hexDigitCode _ hmod]
  norm_num
  omega

/-- Parsing one encoder-escaped code point undoes the escaping, whatever
that code point was. -/
theorem parseJsonAux_escape (c : Nat) (fuel : Nat) (rest : List Nat) :
    parseJsonAux (fuel + 1) (escapeCodepoint c ++ rest) =
      (parseJsonAux fuel rest).map (fun s => c :: s) := by
  unfold escapeCodepoint
  split_ifs with h92 h34 h8 h9 h10 h12 h13 hlt
  · subst h92; simp [parseJsonAux, decodeEscape]
  · subst h34; simp [parseJsonAux, decodeEscape]
  · subst h8; simp [parseJsonAux, decodeEscape]
  · subst h9; simp [parseJsonAux, decodeEscape]
  · subst h10; simp [parseJsonAux, decodeEscape]
  · subst h12; simp [parseJsonAux, decodeEscape]
  · subst h13; simp [parseJsonAux, decodeEscape]
  · simp [parseJsonAux, decodeEscape_control c hlt rest]
  · simp [parseJsonAux, h34, h92]

/-- With fuel at least the number of code points, parsing an escaped string
body recovers the original code points. -/
theorem parseJsonAux_jsonEscapeString (s : List Nat) :
    ∀ fuel, s.length ≤ fuel → parseJsonAux fuel (jsonEscapeString s) = some s := by
  induction s with
  | nil => intro fuel _; cases fuel <;> simp [jsonEscapeString, parseJsonAux]
  | cons c rest ih =>
    intro fuel hfuel
    match fuel, hfuel with
    | f + 1, hfuel =>
      rw [jsonEscapeString, parseJsonAux_escape, ih f (by simpa using hfuel)]
      rfl

/-- Every code point's escape sequence is nonempty. -/
theorem escapeCodepoint_length_pos (c : Nat) : 1 ≤ (escapeCodepoint c).length := by
  unfold escapeCodepoint
  split_ifs <;> simp

/-- Escaping never shortens a string, so the escaped length is enough fuel. -/
theorem length_le_jsonEscapeString (s : List Nat) :
    s.length ≤ (jsonEscapeString s).length := by
  induction s with
  | nil => simp [jsonEscapeString]
  | cons c rest ih =>
    simp only [jsonEscapeString, List.length_append, List.length_cons]
    have := escapeCodepoint_length_pos c
    omega

/-! ## Claim theorems -/

/-- Claim C1, counterexample: the claim says all three contexts log the fault
at CRITICAL severity, but for an uncaught `RuntimeError` surfaced through the
asyncio loop exception handler the handler emits no CRITICAL log action —
it logs at ERROR — even though it does call the crash recorder with the
fault info. -/
theorem C1_counterexample :
    Action.logMsg Level.critical (some ⟨ExcType.runtimeError, "boom"⟩) ∉
      asyncio_exception_handler (some ⟨ExcType.runtimeError, "boom"⟩) ∧
    Action.dumpCrash ⟨ExcType.runtimeError, "boom"⟩ ∈
      asyncio_exception_handler (some ⟨ExcType.runtimeError, "boom"⟩) := by
  decide

/-- Claim C1 as amended: for every uncaught non-interrupt fault, the main-path
hook and the worker-thread hook log at CRITICAL with the full fault payload
and call the crash recorder with the same fault info; the asyncio handler,
when the context carries the exception, logs it at ERROR (not CRITICAL) with
the full payload and calls the crash recorder with the same fault info. -/
theorem C1_amended_handlers (f : FaultInfo)
    (h : f.excType ≠ ExcType.keyboardInterrupt) :
    excepthook_logger f = [Action.logMsg Level.critical (some f), Action.dumpCrash f] ∧
    thread_excepthook f = [Action.logMsg Level.critical (some f), Action.dumpCrash f] ∧
    asyncio_exception_handler (some f) =
      [Action.logMsg Level.error (some f), Action.dumpCrash f] := by
  refine ⟨?_, ?_, rfl⟩ <;> simp [excepthook_logger, thread_excepthook, h]

/-- Claim C1 witness: the amended behavior at a concrete `ZeroDivisionError`. -/
theorem C1_amended_handlers_witness :
    excepthook_logger ⟨ExcType.zeroDivisionError, "division by zero"⟩ =
      [Action.logMsg Level.critical (some ⟨ExcType.zeroDivisionError, "division by zero"⟩),
       Action.dumpCrash ⟨ExcType.zeroDivisionError, "division by zero"⟩] ∧
    thread_excepthook ⟨ExcType.zeroDivisionError, "division by zero"⟩ =
      [Action.logMsg Level.critical (some ⟨ExcType.zeroDivisionError, "division by zero"⟩),
       Action.dumpCrash ⟨ExcType.zeroDivisionError, "division by zero"⟩] ∧
    asyncio_exception_handler (some ⟨ExcType.zeroDivisionError, "division by zero"⟩) =
      [Action.logMsg Level.error (some ⟨ExcType.zeroDivisionError, "division by zero"⟩),
       Action.dumpCrash ⟨ExcType.zeroDivisionError, "division by zero"⟩] :=
  C1_amended_handlers ⟨ExcType.zeroDivisionError, "division by zero"⟩ (by decide)

/-- Claim C2, counterexample: the crash recorder does not replace the crash
file via a temp-file swap — its operation sequence opens the crash file in
truncate mode and writes in place, so a concurrent reader can observe the
truncated (empty) file, which is neither the previous complete report
("OLD") nor the new complete report ("NEW"). -/
theorem C2_counterexample :
    dump_last_crash_ops "NEW" =
      [FileOp.openTruncate, FileOp.write "NEW", FileOp.closeFile] ∧
    FileOp.renameTemp ∉ dump_last_crash_ops "NEW" ∧
    ("" ∈ fileContentsTrace "OLD" (dump_last_crash_ops "NEW") ∧
      "" ≠ "OLD" ∧ "" ≠ "NEW") := by
  decide

/-- Claim C2 as amended: every call to the crash recorder rewrites the crash
file in place — open-with-truncate, then write, then close, with no temp
file or rename — so the contents a concurrent reader can observe are: the
previous report, then the truncated empty file, then the new report. -/
theorem C2_amended_inplace_write (prev report : String) :
    fileContentsTrace prev (dump_last_crash_ops report) =
      [prev, "", report, report] := by
  simp [fileContentsTrace, dump_last_crash_ops, applyFileOp]

/-- Claim C3, counterexample: the claim says a `KeyboardInterrupt` reaching
any installed capture point never writes the crash file, but the asyncio
loop exception handler has no interrupt check: when the context carries a
`KeyboardInterrupt` it calls the crash recorder (and logs at ERROR). -/
theorem C3_counterexample :
    Action.dumpCrash ⟨ExcType.keyboardInterrupt, ""⟩ ∈
      asyncio_exception_handler (some ⟨ExcType.keyboardInterrupt, ""⟩) := by
  decide

/-- Claim C3 as amended: for a `KeyboardInterrupt`, the main-path hook
forwards to the interpreter's default excepthook without logging or writing
the crash file; the worker-thread hook does nothing at all (no log, no crash
file, and no forwarding to default handling); the asyncio handler performs no
interrupt check — when the context carries the interrupt it logs it at ERROR
and writes the crash file like any other fault. -/
theorem C3_amended_interrupt (f : FaultInfo)
    (h : f.excType = ExcType.keyboardInterrupt) :
    excepthook_logger f = [Action.defaultSysExcepthook f] ∧
    thread_excepthook f = [] ∧
    asyncio_exception_handler (some f) =
      [Action.logMsg Level.error (some f), Action.dumpCrash f] := by
  refine ⟨?_, ?_, rfl⟩ <;> simp [excepthook_logger, thread_excepthook, h]

/-- Claim C3 witness: the amended behavior at a concrete `KeyboardInterrupt`. -/
theorem C3_amended_interrupt_witness :
    excepthook_logger ⟨ExcType.keyboardInterrupt, "interrupted"⟩ =
      [Action.defaultSysExcepthook ⟨ExcType.keyboardInterrupt, "interrupted"⟩] ∧
    thread_excepthook ⟨ExcType.keyboardInterrupt, "interrupted"⟩ = [] ∧
    asyncio_exception_handler (some ⟨ExcType.keyboardInterrupt, "interrupted"⟩) =
      [Action.logMsg Level.error (some ⟨ExcType.keyboardInterrupt, "interrupted"⟩),
       Action.dumpCrash ⟨ExcType.keyboardInterrupt, "interrupted"⟩] :=
  C3_amended_interrupt ⟨ExcType.keyboardInterrupt, "interrupted"⟩ rfl

/-- Claim C4, counterexample: the claim says every JSON log line's fields are
exactly timestamp, source, level, message, file, line, function (plus
signature only with a Signer), but a record carrying fault info also gets a
`traceback` field, and no record ever gets a `signature` field — the
formatter has no signature mechanism. -/
theorem C4_counterexample :
    recordKeys ⟨"2026-01-01T00:00:00", "app", "ERROR", "failed", "main.py", 10,
        "run", some "Traceback text"⟩ =
      ["timestamp", "name", "level", "message", "filename", "lineno",
       "funcName", "traceback"] ∧
    "traceback" ∉
      ["timestamp", "name", "level", "message", "filename", "lineno", "funcName"] := by
  decide

/-- Claim C4 as amended: every line emitted by the JSON formatter is one JSON
object whose fields are exactly timestamp, name (the source), level, message,
filename, lineno, funcName, plus a `traceback` field present exactly when the
record carries exception info; no record carries a `signature` field, since
this formatter has no signer. -/
theorem C4_amended_fields (r : LogRecord) :
    recordKeys r =
      ["timestamp", "name", "level", "message", "filename", "lineno", "funcName"] ++
        (match r.exc_info with | some _ => ["traceback"] | none => []) ∧
    "signature" ∉ recordKeys r := by
  cases hr : r.exc_info <;>
    simp [recordKeys, JsonFormatter.format_record, hr]

/-- Claim C5: for every log message (as a sequence of Unicode code points,
covering embedded double quotes, newlines and non-ASCII characters),
escaping it the way `json.dumps(..., ensure_ascii=False)` does inside
`JsonFormatter.format` and then reading the result back with a standard JSON
string parser recovers the original message exactly. -/
theorem C5_message_roundtrip (msg : List Nat) :
    parseJsonStringBody (jsonEscapeString msg) = some msg := by
  unfold parseJsonStringBody
  exact parseJsonAux_jsonEscapeString msg _ (length_le_jsonEscapeString msg)

/-- Claim C6: with single-instance enforcement enabled and a platform lock
available, `JVLogger.__init__` raises the distinct `SingleInstanceError`
exactly when the named lock is already held — the acquisition attempt is the
spec's non-blocking acquire — and otherwise acquires the lock and proceeds
with construction. -/
theorem C6_single_instance (alreadyHeld : Bool) :
    JVLogger.init_single_instance true true alreadyHeld =
      (if alreadyHeld then InitOutcome.raisedSingleInstanceError
       else InitOutcome.constructed true) := by
  cases alreadyHeld <;> rfl

/-- Claim C7: installing the global exception handlers twice yields exactly
the process handler state of installing them once (the hooks are slot
assignments, not list registrations), and with the handlers installed each
actual (non-interrupt) main-path fault produces exactly one CRITICAL log
action and exactly one crash-file write. -/
theorem C7_install_idempotent (s : HookState) (f : FaultInfo)
    (h : f.excType ≠ ExcType.keyboardInterrupt) :
    install_global_exception_handlers (install_global_exception_handlers s) =
      install_global_exception_handlers s ∧
    countCritical (dispatchMainFault (install_global_exception_handlers s) f) = 1 ∧
    countDump (dispatchMainFault (install_global_exception_handlers s) f) = 1 := by
  refine ⟨?_, ?_, ?_⟩
  · unfold install_global_exception_handlers
    split_ifs <;> simp_all
  · simp [dispatchMainFault, install_global_exception_handlers,
      excepthook_logger, h, countCritical]
  · simp [dispatchMainFault, install_global_exception_handlers,
      excepthook_logger, h, countDump]

/-- Claim C7 witness: idempotence and single CRITICAL/dump at a concrete
initial hook state and a concrete `RuntimeError`. -/
theorem C7_install_idempotent_witness :
    install_global_exception_handlers (install_global_exception_handlers
      ⟨SysHookSlot.interpreterDefault, ThreadHookSlot.interpreterDefault,
       LoopHookSlot.loopDefault, true, false⟩) =
      install_global_exception_handlers
        ⟨SysHookSlot.interpreterDefault, ThreadHookSlot.interpreterDefault,
         LoopHookSlot.loopDefault, true, false⟩ ∧
    countCritical (dispatchMainFault (install_global_exception_handlers
      ⟨SysHookSlot.interpreterDefault, ThreadHookSlot.interpreterDefault,
       LoopHookSlot.loopDefault, true, false⟩) ⟨ExcType.runtimeError, "fault"⟩) = 1 ∧
    countDump (dispatchMainFault (install_global_exception_handlers
      ⟨SysHookSlot.interpreterDefault, ThreadHookSlot.interpreterDefault,
       LoopHookSlot.loopDefault, true, false⟩) ⟨ExcType.runtimeError, "fault"⟩) = 1 :=
  C7_install_idempotent
    ⟨SysHookSlot.interpreterDefault, ThreadHookSlot.interpreterDefault,
     LoopHookSlot.loopDefault, true, false⟩
    ⟨ExcType.runtimeError, "fault"⟩ (by decide)

/-- Claim C8: whatever happens inside the crash write path — opening failing,
writing failing, or both succeeding — `dump_last_crash` returns normally: the
`except Exception: pass` wrapper swallows every internal error, so no error
ever propagates to the caller and no further reporting is attempted. -/
theorem C8_crash_write_swallows (openResult writeResult : Except PyError Unit) :
    dump_last_crash_outcome openResult writeResult = Except.ok () := by
  unfold dump_last_crash_outcome
  split <;> rfl

/-- Claim C9: releasing the instance lock through `JVLogger.close` is
idempotent — after one `close` the lock reference is cleared, so a second
`close` changes nothing and performs no release action (and raises no
error). -/
theorem C9_release_idempotent (s : JVLoggerState) :
    (JVLogger.close (JVLogger.close s).1).1 = (JVLogger.close s).1 ∧
    (JVLogger.close (JVLogger.close s).1).2 = [] := by
  simp [JVLogger.close]

/-- Claim C10: when the underlying named logger already has handlers, both
constructors add none (the handler list is returned untouched), and
constructing twice with the same name leaves exactly the handler list of the
first construction — no duplicated handlers, so no duplicated output per
event. -/
theorem C10_no_duplicate_handlers (configHandlers existing : List Handler) :
    (existing ≠ [] → Logger.init_handlers existing = existing) ∧
    Logger.init_handlers (Logger.init_handlers existing) =
      Logger.init_handlers existing ∧
    (existing ≠ [] → JVLogger.init_handlers configHandlers existing = existing) ∧
    JVLogger.init_handlers configHandlers
        (JVLogger.init_handlers configHandlers existing) =
      JVLogger.init_handlers configHandlers existing := by
  refine ⟨?_, ?_, ?_, ?_⟩ <;>
    simp only [Logger.init_handlers, JVLogger.init_handlers] <;>
    split_ifs <;> simp_all

/-- Claim C10 witness: a logger that already has the three handlers gains
none on reconstruction, concretely. -/
theorem C10_no_duplicate_handlers_witness :
    ([Handler.consoleColored] ≠ ([] : List Handler) →
      Logger.init_handlers [Handler.consoleColored] = [Handler.consoleColored]) ∧
    Logger.init_handlers (Logger.init_handlers [Handler.consoleColored]) =
      Logger.init_handlers [Handler.consoleColored] ∧
    ([Handler.consoleColored] ≠ ([] : List Handler) →
      JVLogger.init_handlers [Handler.rotatingJson] [Handler.consoleColored] =
        [Handler.consoleColored]) ∧
    JVLogger.init_handlers [Handler.rotatingJson]
        (JVLogger.init_handlers [Handler.rotatingJson] [Handler.consoleColored]) =
      JVLogger.init_handlers [Handler.rotatingJson] [Handler.consoleColored] :=
  C10_no_duplicate_handlers [Handler.rotatingJson] [Handler.consoleColored]

end MyLogger
